import Mathlib

/-!
Verification of the Confluence HTTP gateway (packages/backend/confluence).

The service is a thin "subprocess transform gateway": each data endpoint
checks that its R script file exists, optionally validates the request body,
runs `subprocess.run(["Rscript", script], input=payload, capture_output=True,
text=True, timeout=30, check=False)` once, and maps the outcome to an HTTP
response.  We embed each route handler as a pure Lean function over an
explicit environment describing the outcome of the single external
invocation and the behaviour of `json.loads` on the captured stdout.

Modelling notes, fixed by the semantics of Python and the libraries used:
* `fastapi.HTTPException` is a subclass of `Exception`.  Each handler raises
  its error `HTTPException`s inside a `try:` block that ends with
  `except Exception as e: raise HTTPException(500, f"Unexpected error during
  <ctx>: {str(e)}")`, so every `HTTPException` raised inside the `try` body is
  caught there and re-raised with its detail wrapped.  Starlette renders
  `str(HTTPException)` as `f"{status_code}: {detail}"`.
* `subprocess.TimeoutExpired` and `FileNotFoundError` raised by
  `subprocess.run` are caught by their dedicated `except` clauses when the
  handler has them; the bodies of those clauses raise fresh `HTTPException`s
  which propagate unwrapped.  On timeout, `subprocess.run` kills and reaps
  the child before raising, so the `timeoutExpired` outcome of the model
  stands for "the deadline passed and the child was terminated".
* Python truthiness of `data.get("error")` and the `or`-fallbacks
  (`result.stderr or "Unknown R error"`, `data.get('message', 'Unknown
  error')`) are modelled explicitly.
-/

namespace Confluence

/-- JSON values, the currency of both the HTTP bodies and the external
process's stdout.  Numbers are rationals (Python floats/ints as parsed by
`json.loads`; no claim below depends on float rounding). -/
inductive Json where
  | null : Json
  | bool (b : Bool) : Json
  | num (q : Rat) : Json
  | str (s : String) : Json
  | arr (xs : List Json) : Json
  | obj (kvs : List (String × Json)) : Json

/-- `dict.get k` for a parsed JSON object: on duplicate keys `json.loads`
keeps the last occurrence, so the fold keeps the last match. -/
def lookupLast (kvs : List (String × Json)) (k : String) : Option Json :=
  kvs.foldl (fun acc kv => if kv.1 = k then some kv.2 else acc) none

/-- Python truthiness of a JSON-decoded value (`None`, `False`, `0`, `""`,
`[]`, `{}` are falsy). -/
def Json.truthy : Json → Bool
  | .null => false
  | .bool b => b
  | .num q => q != 0
  | .str s => s != ""
  | .arr xs => !xs.isEmpty
  | .obj kvs => !kvs.isEmpty

/-- `isinstance(data, dict) and data.get("error")` — the in-band error check
performed by spectrum `/analyze` and loom `/generate` on a zero-exit,
successfully parsed output. -/
def isInBandError : Json → Bool
  | .obj kvs => ((lookupLast kvs "error").getD .null).truthy
  | _ => false

/-- Python `str()` of a decoded JSON value as rendered by f-string
interpolation.  The handlers only ever interpolate the "message" field of an
in-band error object; scalar cases follow Python exactly, container cases
are bracketed renderings (no handler path we verify reaches them). -/
def pyStr : Json → String
  | .null => "None"
  | .bool true => "True"
  | .bool false => "False"
  | .num q => toString q
  | .str s => s
  | .arr _ => "[...]"
  | .obj _ => "\x7b...\x7d"

/-- `data.get('message', 'Unknown error')` interpolated into the in-band
error detail.  Only called on objects. -/
def inBandMessage : Json → String
  | .obj kvs => pyStr ((lookupLast kvs "message").getD (.str "Unknown error"))
  | _ => ""

/-- Outcome of one `subprocess.run(["Rscript", ...], timeout=...)` call.
`completed` is a normal `CompletedProcess` (any return code); the other
constructors are the exceptions `subprocess.run` can raise: the deadline
passed (child killed and reaped before the exception propagates),
`FileNotFoundError` because `Rscript` is not installed, or any other
exception with its `str()` rendering. -/
inductive RunOutcome where
  | completed (returncode : Int) (stdout stderr : String) : RunOutcome
  | timeoutExpired : RunOutcome
  | fileNotFound : RunOutcome
  | otherError (msg : String) : RunOutcome

/-- Environment of one data-endpoint request: whether the module's R script
file exists, the outcome of the single external invocation, and the
behaviour of `json.loads` on captured stdout (`Except.error` carries
`str(JSONDecodeError)`). -/
structure Env where
  scriptPath : String
  scriptExists : Bool
  run : RunOutcome
  jsonLoads : String → Except String Json

/-- An HTTP response: `ok` is a 200 `JSONResponse` with the given body,
`httpError` an `HTTPException` surfaced with its status and detail. -/
inductive Response where
  | ok (body : Json) : Response
  | httpError (status : Nat) (detail : String) : Response

/-- HTTP status code of a response (a plain `JSONResponse` is 200). -/
def Response.status : Response → Nat
  | .ok _ => 200
  | .httpError s _ => s

/-- Diagnostic detail of a response (empty for a success body). -/
def Response.detail : Response → String
  | .ok _ => ""
  | .httpError _ d => d

/-- Substring test on the underlying character lists (Python `in`). -/
def charsStartWith : List Char → List Char → Bool
  | _, [] => true
  | [], _ :: _ => false
  | a :: as, b :: bs => a == b && charsStartWith as bs

/-- Does `pat` occur somewhere in `hay` (as a contiguous run)? -/
def subOccurs : List Char → List Char → Bool
  | [], pat => pat.isEmpty
  | h :: t, pat => charsStartWith (h :: t) pat || subOccurs t pat

/-- Python's `pat in hay` on strings. -/
def containsSubstr (hay pat : String) : Bool :=
  subOccurs hay.data pat.data

/-- `str()` of the `FileNotFoundError` raised when the `Rscript` executable
is missing. -/
def fnfMessage : String := "[Errno 2] No such file or directory: \x27Rscript\x27"

/-- The detail produced by the trailing `except Exception as e` clause:
`f"Unexpected error during {ctx}: {str(e)}"` where `e` is an
`HTTPException`, whose `str()` is `f"{status_code}: {detail}"`. -/
def wrapUnexpected (ctx : String) (status : Nat) (detail : String) : String :=
  s!"Unexpected error during {ctx}: {status}: {detail}"

/-- The detail for a non-`HTTPException` exception caught by the trailing
`except Exception` clause. -/
def wrapUnexpectedRaw (ctx : String) (msg : String) : String :=
  s!"Unexpected error during {ctx}: {msg}"

/-- `result.stderr or "Unknown R error"`. -/
def stderrOrUnknown (err : String) : String :=
  if err = "" then "Unknown R error" else err

/-- Result of the shared `try`-block body once `subprocess.run` has returned
a `CompletedProcess`: either the parsed body to return, or an
`HTTPException` raised inside the `try` (which the trailing
`except Exception` clause will wrap). -/
inductive TryResult where
  | success (body : Json) : TryResult
  | httpExc (status : Nat) (detail : String) : TryResult

/-- `f"R script execution failed: {error_msg}"`. -/
def execFailedDetail (err : String) : String :=
  let msg := stderrOrUnknown err
  s!"R script execution failed: {msg}"

/-- `f"Failed to parse R output as JSON: {str(e)}"`. -/
def parseFailedDetail (e : String) : String :=
  s!"Failed to parse R output as JSON: {e}"

/-- `f"R script error: {data.get('message', 'Unknown error')}"`. -/
def inBandDetail (data : Json) : String :=
  let msg := inBandMessage data
  s!"R script error: {msg}"

/-- The common post-invocation logic of the handlers: non-zero exit, JSON
parse of stdout, and (for spectrum `/analyze` and loom `/generate` only,
`checkErrObj = true`) the in-band error-object check. -/
def gatewayTry (checkErrObj : Bool) (jsonLoads : String → Except String Json)
    (rc : Int) (out err : String) : TryResult :=
  if rc != 0 then
    .httpExc 500 (execFailedDetail err)
  else
    match jsonLoads out with
    | .error e => .httpExc 500 (parseFailedDetail e)
    | .ok data =>
      if checkErrObj && isInBandError data then
        .httpExc 500 (inBandDetail data)
      else
        .success data

/-- The shared `try ... except` structure around the single invocation.
`hasFnfClause` records whether the handler has a dedicated
`except FileNotFoundError` clause (the demo endpoints do not, so there the
error falls through to `except Exception`). -/
def runAndRespond (ctx : String) (hasFnfClause checkErrObj : Bool) (env : Env) : Response :=
  match env.run with
  | .timeoutExpired =>
    .httpError 504 "R script execution timed out after 30 seconds"
  | .fileNotFound =>
    if hasFnfClause then
      .httpError 500 "Rscript command not found. Is R installed?"
    else
      .httpError 500 (wrapUnexpectedRaw ctx fnfMessage)
  | .otherError m =>
    .httpError 500 (wrapUnexpectedRaw ctx m)
  | .completed rc out err =>
    match gatewayTry checkErrObj env.jsonLoads rc out err with
    | .success body => .ok body
    | .httpExc s d => .httpError 500 (wrapUnexpected ctx s d)

/-- The "R script not found at ..." response raised before the `try` block. -/
def scriptMissing (env : Env) : Response :=
  let p := env.scriptPath
  .httpError 500 s!"R script not found at {p}"

/-- Request model of `POST /api/spectrum/analyze` (pydantic `SpectrumRequest`;
defaults `sample_rate=1.0`, `n_peaks=8` are applied at parse time, explicit
nulls stay `none`). -/
structure SpectrumRequest where
  series : Option (List Rat) := none
  series1 : Option (List Rat) := none
  series2 : Option (List Rat) := none
  sample_rate : Option Rat := some 1
  n_peaks : Option Int := some 8

/-- `x is not None and len(x) < 4` for one optional series field. -/
def shortSeries : Option (List Rat) → Bool
  | none => false
  | some s => s.length < 4

/-- Handler of `POST /api/spectrum/analyze`.  Returns the response together
with the number of external invocations issued while serving the request. -/
def analyze_spectrum (env : Env) (req : SpectrumRequest) : Response × Nat :=
  if env.scriptExists = false then
    (scriptMissing env, 0)
  else if req.series.isNone && (req.series1.isNone || req.series2.isNone) then
    (.httpError 400 "Must provide either \x27series\x27 or both \x27series1\x27 and \x27series2\x27", 0)
  else if shortSeries req.series then
    (.httpError 400 "Series must contain at least 4 data points for FFT", 0)
  else if shortSeries req.series1 then
    (.httpError 400 "Series1 must contain at least 4 data points for FFT", 0)
  else if shortSeries req.series2 then
    (.httpError 400 "Series2 must contain at least 4 data points for FFT", 0)
  else
    (runAndRespond "spectral analysis" true true env, 1)

/-- Handler of `GET /api/spectrum/demo` (no validation, no in-band error
check, no dedicated `except FileNotFoundError` clause). -/
def demo_spectrum (env : Env) : Response × Nat :=
  if env.scriptExists = false then
    (scriptMissing env, 0)
  else
    (runAndRespond "demo analysis" false false env, 1)

/-- Request model of `POST /api/loom/generate` (pydantic `LoomRequest`). -/
structure LoomRequest where
  system : String
  params : Option (List (String × Json)) := none

/-- The fixed enumeration accepted by loom `/generate`. -/
def valid_systems : List String := ["lorenz", "automaton", "fibonacci", "clifford"]

/-- Handler of `POST /api/loom/generate`. -/
def generate_loom (env : Env) (req : LoomRequest) : Response × Nat :=
  if env.scriptExists = false then
    (scriptMissing env, 0)
  else if (valid_systems.contains req.system) = false then
    (.httpError 400 "Invalid system. Must be one of: lorenz, automaton, fibonacci, clifford", 0)
  else
    (runAndRespond "loom generation" true true env, 1)

/-- Handler of `GET /api/loom/demo` (no in-band error check, no dedicated
`except FileNotFoundError` clause). -/
def demo_loom (env : Env) : Response × Nat :=
  if env.scriptExists = false then
    (scriptMissing env, 0)
  else
    (runAndRespond "demo generation" false false env, 1)

/-- Handler of `GET /api/iris/data` (no request body, no in-band error
check; has the dedicated `except FileNotFoundError` clause). -/
def get_iris_data (env : Env) : Response × Nat :=
  if env.scriptExists = false then
    (scriptMissing env, 0)
  else
    (runAndRespond "iris transformation" true false env, 1)

/-- Environment of one `GET /api/iris/debug` request: the script-existence
check plus the outcomes of the three probe invocations the handler makes
(`Rscript --version` with a 5s timeout, the `jsonlite` load check with a 5s
timeout, and the trial script execution with a 10s timeout), and `json.loads`
for the trial output inspection. -/
structure DebugEnv where
  scriptPath : String
  scriptExists : Bool
  versionRun : RunOutcome
  jsonliteRun : RunOutcome
  testRun : RunOutcome
  jsonLoads : String → Except String Json

/-- First line of a string (`s.split('\n')[0]`; `splitOn` always returns a
nonempty list). -/
def firstLineOf (s : String) : String :=
  (s.splitOn "\n").headD ""

/-- `stdout[:200] + "..." if len(stdout) > 200 else stdout`. -/
def preview200 (s : String) : String :=
  if s.length > 200 then String.mk (s.data.take 200) ++ "..." else s

/-- The diagnostics dictionary assembled by `debug_iris_pipeline`, with the
conditionally present keys as `Option` fields. -/
structure Diagnostics where
  r_script_path : String
  r_script_exists : Bool
  r_installed : Bool
  r_version : Option String
  jsonlite_installed : Bool
  test_execution_success : Bool
  test_output_valid_json : Option Bool
  test_output_preview : Option String
  test_error : Option String
  pipeline_ready : Bool

/-- Handler of `GET /api/iris/debug`.  Probes are run in sequence; the trial
execution happens only when the script exists and the interpreter probe
succeeded.  `pipeline_ready` is assembled from the four recorded flags. -/
def debug_iris_pipeline (env : DebugEnv) : Diagnostics :=
  let r_script_exists := env.scriptExists
  -- step 2: `Rscript --version`; timeouts and other exceptions fall to the
  -- generic handler which records `r_installed = False`.
  let rPair : Bool × Option String :=
    match env.versionRun with
    | .completed rc _ err =>
      (rc == 0, if rc == 0 then some (firstLineOf err.trim) else none)
    | _ => (false, none)
  let r_installed := rPair.1
  -- step 3: `library(jsonlite); cat('OK')` must exit zero and print OK.
  let jsonlite_installed :=
    match env.jsonliteRun with
    | .completed rc out _ => rc == 0 && containsSubstr out "OK"
    | _ => false
  -- step 4: trial execution, attempted only when script and interpreter
  -- are present; `test_execution_success` is `returncode == 0` when the run
  -- completes and `False` on every exceptional branch and when skipped.
  let test_execution_success :=
    if r_script_exists && r_installed then
      match env.testRun with
      | .completed rc _ _ => rc == 0
      | _ => false
    else false
  -- the remaining keys of the same branches: (valid_json, preview, error).
  let testInfo : Option Bool × Option String × Option String :=
    if r_script_exists && r_installed then
      match env.testRun with
      | .completed rc out err =>
        if rc == 0 then
          match env.jsonLoads out with
          | .ok _ => (some true, some (preview200 out), none)
          | .error _ => (some false, some (String.mk (out.data.take 200)), none)
        else
          (some false, if out = "" then none else some (String.mk (out.data.take 200)), some err)
      | .timeoutExpired =>
        (none, none, some "Execution timed out after 10 seconds")
      | .fileNotFound =>
        (none, none, some fnfMessage)
      | .otherError m =>
        (none, none, some m)
    else
      (none, none, some "Cannot test - script doesn\x27t exist or R not installed")
  { r_script_path := env.scriptPath
    r_script_exists := r_script_exists
    r_installed := r_installed
    r_version := rPair.2
    jsonlite_installed := jsonlite_installed
    test_execution_success := test_execution_success
    test_output_valid_json := testInfo.1
    test_output_preview := testInfo.2.1
    test_error := testInfo.2.2
    pipeline_ready := r_script_exists && r_installed && jsonlite_installed && test_execution_success }

/-- The check `debug_iris_pipeline` records as `r_installed`: the
`Rscript --version` probe returned with exit status zero. -/
def rInstalledCheck : RunOutcome → Bool
  | .completed rc _ _ => rc == 0
  | _ => false

/-- The check recorded as `jsonlite_installed`: the library probe exited
zero and printed `OK`. -/
def jsonliteCheck : RunOutcome → Bool
  | .completed rc out _ => rc == 0 && containsSubstr out "OK"
  | _ => false

/-- The check recorded as `test_execution_success` when the trial execution
is attempted: the script run exited zero. -/
def testExecCheck : RunOutcome → Bool
  | .completed rc _ _ => rc == 0
  | _ => false

/-- One parameter entry of the loom systems catalog
(`name/type/default/min/max`). -/
structure ParamSpec where
  key : String
  ptype : String
  default : Rat
  min : Rat
  max : Rat

/-- One catalog entry returned by `GET /api/loom/systems`. -/
structure SystemSpec where
  id : String
  name : String
  description : String
  category : String
  params : List ParamSpec

/-- The literal catalog embedded in `list_systems`. -/
def loomSystems : List SystemSpec :=
  [ { id := "lorenz"
      name := "Lorenz Attractor"
      description := "The butterfly\x27s wing. Deterministic chaos—predictable yet unknowable."
      category := "chaos"
      params :=
        [ { key := "n", ptype := "int", default := 2000, min := 100, max := 10000 }
        , { key := "dt", ptype := "float", default := 0.01, min := 0.001, max := 0.1 }
        , { key := "sigma", ptype := "float", default := 10, min := 1, max := 20 }
        , { key := "rho", ptype := "float", default := 28, min := 1, max := 50 }
        , { key := "beta", ptype := "float", default := 2.667, min := 0.5, max := 5 } ] }
  , { id := "automaton"
      name := "Cellular Automaton"
      description := "Simple rules, emergent complexity. The flamenco of logic."
      category := "discrete"
      params :=
        [ { key := "rule", ptype := "int", default := 110, min := 0, max := 255 }
        , { key := "width", ptype := "int", default := 64, min := 16, max := 128 }
        , { key := "generations", ptype := "int", default := 64, min := 16, max := 128 } ] }
  , { id := "fibonacci"
      name := "Fibonacci Spiral"
      description := "Nature\x27s favorite number. Shells, galaxies, your heartbeat."
      category := "harmony"
      params :=
        [ { key := "n", ptype := "int", default := 144, min := 10, max := 500 } ] }
  , { id := "clifford"
      name := "Clifford Attractor"
      description := "Four numbers, infinite beauty. Adjust and discover."
      category := "strange"
      params :=
        [ { key := "n", ptype := "int", default := 5000, min := 100, max := 20000 }
        , { key := "a", ptype := "float", default := -1.4, min := -3, max := 3 }
        , { key := "b", ptype := "float", default := 1.6, min := -3, max := 3 }
        , { key := "c", ptype := "float", default := 1.0, min := -3, max := 3 }
        , { key := "d", ptype := "float", default := 0.7, min := -3, max := 3 } ] }
  ]

/-- JSON rendering of one parameter entry. -/
def paramJson (p : ParamSpec) : String × Json :=
  (p.key, Json.obj
    [ ("type", .str p.ptype)
    , ("default", .num p.default)
    , ("min", .num p.min)
    , ("max", .num p.max) ])

/-- JSON rendering of one catalog entry. -/
def systemJson (s : SystemSpec) : Json :=
  Json.obj
    [ ("id", .str s.id)
    , ("name", .str s.name)
    , ("description", .str s.description)
    , ("category", .str s.category)
    , ("params", .obj (s.params.map paramJson)) ]

/-- Handler of `GET /api/loom/systems`: a static catalog, issuing no
external invocation (second component). -/
def list_systems : Response × Nat :=
  (.ok (Json.obj [("systems", Json.arr (loomSystems.map systemJson))]), 0)

/-- The constant body returned by `GET /health` in `main.py`. -/
def healthBody : Json :=
  Json.obj
    [ ("status", .str "ok")
    , ("services", .obj [ ("api", .str "ok"), ("r", .str "ok") ])
    , ("timestamp", .str "2025-12-03T00:00:00Z") ]

/-- Handler of `GET /health`.  The source function touches no dependency;
it is modelled as a function of the environment so that its independence
from the interpreter, scripts and subprocess outcomes is expressible. -/
def health (_env : Env) : Response :=
  .ok healthBody

/-- The four client-error details spectrum `/analyze` can reject a request
with; each names the violated constraint. -/
def spectrumValidationMsgs : List String :=
  [ "Must provide either \x27series\x27 or both \x27series1\x27 and \x27series2\x27"
  , "Series must contain at least 4 data points for FFT"
  , "Series1 must contain at least 4 data points for FFT"
  , "Series2 must contain at least 4 data points for FFT" ]

/-- `str(JSONDecodeError)` produced by `json.loads` on input that is not
JSON at all (as for the text `not-json`). -/
def decodeErrMsg : String := "Expecting value: line 1 column 1 (char 0)"

/-- The in-band error object `{"error": true, "message": "boom"}`. -/
def boomObj : Json :=
  .obj [ ("error", .bool true), ("message", .str "boom") ]

/-- Concrete nominal environment: script present, process exits 0, stdout
`out-ok` decodes to the JSON number 7. -/
def envPass : Env :=
  { scriptPath := "spectral_analysis.R"
    scriptExists := true
    run := .completed 0 "out-ok" ""
    jsonLoads := fun s => if s = "out-ok" then .ok (.num 7) else .error decodeErrMsg }

/-- Concrete valid spectrum request: a single series of four points. -/
def reqPass : SpectrumRequest :=
  { series := some [1, 2, 3, 4] }

/-- Concrete spectrum request violating the length constraint. -/
def reqShort : SpectrumRequest :=
  { series := some [1, 2] }

/-- Concrete loom request with a system in the enumeration. -/
def reqLorenz : LoomRequest :=
  { system := "lorenz" }

/-- Concrete loom request with `system = "quantum"`. -/
def reqQuantum : LoomRequest :=
  { system := "quantum" }

/-- Concrete environment whose process exits 0 and prints the in-band error
object. -/
def envBoom : Env :=
  { scriptPath := "loom_generators.R"
    scriptExists := true
    run := .completed 0 "boom-out" ""
    jsonLoads := fun s => if s = "boom-out" then .ok boomObj else .error decodeErrMsg }

/-- Concrete environment whose process exits 0 and writes `not-json`, which
`json.loads` rejects. -/
def envNotJson : Env :=
  { scriptPath := "iris_transform.R"
    scriptExists := true
    run := .completed 0 "not-json" ""
    jsonLoads := fun _ => .error decodeErrMsg }

/-- Concrete environment whose process exits 1 with empty stdout and stderr. -/
def envExitOne : Env :=
  { scriptPath := "iris_transform.R"
    scriptExists := true
    run := .completed 1 "" ""
    jsonLoads := fun _ => .error decodeErrMsg }

/-- Concrete environment whose process exceeds the 30-second deadline. -/
def envTimeout : Env :=
  { scriptPath := "iris_transform.R"
    scriptExists := true
    run := .timeoutExpired
    jsonLoads := fun _ => .error decodeErrMsg }

/-- C1: for every spectrum `/analyze` request that passes validation, the
handler issues exactly one external invocation, and when that process exits
zero, its stdout parses as JSON, and the parsed value is not an object with
a truthy "error" field, the HTTP response body is exactly the parsed JSON
value, unchanged. -/
theorem c1_spectrum_passthrough (env : Env) (req : SpectrumRequest)
    (out err : String) (data : Json)
    (hs : env.scriptExists = true)
    (hform : (req.series.isNone && (req.series1.isNone || req.series2.isNone)) = false)
    (h1 : shortSeries req.series = false)
    (h2 : shortSeries req.series1 = false)
    (h3 : shortSeries req.series2 = false)
    (hr : env.run = .completed 0 out err)
    (hp : env.jsonLoads out = .ok data)
    (he : isInBandError data = false) :
    analyze_spectrum env req = (.ok data, 1) := by
  simp [analyze_spectrum, hs, hform, h1, h2, h3, runAndRespond, hr, gatewayTry, hp, he]

/-- C1 witness: the pass-through theorem at a concrete environment and
request. -/
theorem c1_spectrum_passthrough_witness :
    analyze_spectrum envPass reqPass = (.ok (.num 7), 1) :=
  c1_spectrum_passthrough envPass reqPass "out-ok" "" (.num 7)
    rfl rfl rfl rfl rfl rfl rfl rfl

/-- C4: for every invocation whose external process exceeds the 30-second
wall-clock timeout, each data-producing endpoint returns HTTP 504.  The
`timeoutExpired` outcome stands for `subprocess.run` raising
`TimeoutExpired`, which per the Python library happens only after the child
has been killed and reaped, so no process is leaked on this path. -/
theorem c4_timeout_504 (env : Env) (reqS : SpectrumRequest) (reqL : LoomRequest)
    (hs : env.scriptExists = true)
    (hform : (reqS.series.isNone && (reqS.series1.isNone || reqS.series2.isNone)) = false)
    (h1 : shortSeries reqS.series = false)
    (h2 : shortSeries reqS.series1 = false)
    (h3 : shortSeries reqS.series2 = false)
    (hl : reqL.system ∈ valid_systems)
    (hr : env.run = .timeoutExpired) :
    get_iris_data env = (.httpError 504 "R script execution timed out after 30 seconds", 1) ∧
    analyze_spectrum env reqS = (.httpError 504 "R script execution timed out after 30 seconds", 1) ∧
    generate_loom env reqL = (.httpError 504 "R script execution timed out after 30 seconds", 1) ∧
    demo_spectrum env = (.httpError 504 "R script execution timed out after 30 seconds", 1) ∧
    demo_loom env = (.httpError 504 "R script execution timed out after 30 seconds", 1) := by
  refine ⟨?_, ?_, ?_, ?_, ?_⟩ <;>
    simp [get_iris_data, analyze_spectrum, generate_loom, demo_spectrum, demo_loom,
          hs, hform, h1, h2, h3, hl, runAndRespond, hr]

/-- C4 witness: the timeout theorem at a concrete environment and
requests. -/
theorem c4_timeout_504_witness :
    get_iris_data envTimeout = (.httpError 504 "R script execution timed out after 30 seconds", 1) ∧
    analyze_spectrum envTimeout reqPass = (.httpError 504 "R script execution timed out after 30 seconds", 1) ∧
    generate_loom envTimeout reqLorenz = (.httpError 504 "R script execution timed out after 30 seconds", 1) ∧
    demo_spectrum envTimeout = (.httpError 504 "R script execution timed out after 30 seconds", 1) ∧
    demo_loom envTimeout = (.httpError 504 "R script execution timed out after 30 seconds", 1) :=
  c4_timeout_504 envTimeout reqPass reqLorenz rfl rfl rfl rfl rfl (by decide) rfl

/-- C5: every loom `/generate` request whose "system" is outside the
enumeration is rejected with HTTP 400 and the external process is never
invoked (given the script-existence precondition checked first by the
handler has passed). -/
theorem c5_invalid_system (env : Env) (req : LoomRequest)
    (hs : env.scriptExists = true)
    (hbad : req.system ∉ valid_systems) :
    generate_loom env req =
      (.httpError 400 "Invalid system. Must be one of: lorenz, automaton, fibonacci, clifford", 0) := by
  simp [generate_loom, hs, hbad]

/-- C5 witness: the rejection theorem at `system = "quantum"`. -/
theorem c5_invalid_system_witness :
    reqQuantum.system ∉ valid_systems ∧
    generate_loom envPass reqQuantum =
      (.httpError 400 "Invalid system. Must be one of: lorenz, automaton, fibonacci, clifford", 0) :=
  ⟨by decide, c5_invalid_system envPass reqQuantum rfl (by decide)⟩

/-- C6: every spectrum `/analyze` request in which some supplied sequence
has fewer than 4 elements is rejected with HTTP 400, with a detail drawn
from the validation messages (each of which names its constraint), and the
external process is never invoked (given the script-existence precondition
checked first by the handler has passed). -/
theorem c6_short_series_rejected (env : Env) (req : SpectrumRequest)
    (hs : env.scriptExists = true)
    (hshort : (shortSeries req.series || shortSeries req.series1 || shortSeries req.series2) = true) :
    ∃ d ∈ spectrumValidationMsgs, analyze_spectrum env req = (.httpError 400 d, 0) := by
  cases h0 : (req.series.isNone && (req.series1.isNone || req.series2.isNone)) with
  | true =>
    exact ⟨"Must provide either \x27series\x27 or both \x27series1\x27 and \x27series2\x27",
      by decide, by simp [analyze_spectrum, hs, h0]⟩
  | false =>
    cases hA : shortSeries req.series with
    | true =>
      exact ⟨"Series must contain at least 4 data points for FFT",
        by decide, by simp [analyze_spectrum, hs, h0, hA]⟩
    | false =>
      cases hB : shortSeries req.series1 with
      | true =>
        exact ⟨"Series1 must contain at least 4 data points for FFT",
          by decide, by simp [analyze_spectrum, hs, h0, hA, hB]⟩
      | false =>
        cases hC : shortSeries req.series2 with
        | true =>
          exact ⟨"Series2 must contain at least 4 data points for FFT",
            by decide, by simp [analyze_spectrum, hs, h0, hA, hB, hC]⟩
        | false =>
          simp [hA, hB, hC] at hshort

/-- C6 witness: the fail-fast theorem at a two-point series. -/
theorem c6_short_series_rejected_witness :
    (shortSeries reqShort.series || shortSeries reqShort.series1 || shortSeries reqShort.series2) = true ∧
    ∃ d ∈ spectrumValidationMsgs, analyze_spectrum envPass reqShort = (.httpError 400 d, 0) :=
  ⟨by decide, c6_short_series_rejected envPass reqShort rfl (by decide)⟩

/-- C9: the `/api/loom/systems` catalog makes no external invocation and
holds exactly four entries with ids lorenz, automaton, fibonacci, clifford,
and every declared parameter default lies within its min/max bounds. -/
theorem c9_systems_catalog :
    list_systems.2 = 0 ∧
    loomSystems.length = 4 ∧
    loomSystems.map SystemSpec.id = ["lorenz", "automaton", "fibonacci", "clifford"] ∧
    loomSystems.all
      (fun s => s.params.all (fun p => p.min ≤ p.default && p.default ≤ p.max)) = true := by
  refine ⟨rfl, rfl, rfl, ?_⟩
  norm_num [loomSystems, List.all_cons, List.all_nil]

/-- C10: `GET /health` returns the same constant body for every
environment: status ok, both services reported ok, and the fixed timestamp;
no dependency is consulted. -/
theorem c10_health_constant (env : Env) :
    health env =
      .ok (Json.obj
        [ ("status", .str "ok")
        , ("services", .obj [ ("api", .str "ok"), ("r", .str "ok") ])
        , ("timestamp", .str "2025-12-03T00:00:00Z") ]) := rfl

/-- C2 (amended): when the external process exits zero and writes the
in-band error object `\x7b"error": true, "message": "boom"\x7d`, only the two
endpoints that perform the in-band check — spectrum `/analyze` and loom
`/generate` — return HTTP 500, with a diagnostic containing "boom" (the
detail is wrapped by the trailing `except Exception` clause); iris `/data`,
spectrum `/demo` and loom `/demo` perform no such check and return the
error object verbatim with HTTP 200. -/
theorem c2_inband_error_paths (env : Env) (reqS : SpectrumRequest) (reqL : LoomRequest)
    (out err : String)
    (hs : env.scriptExists = true)
    (hform : (reqS.series.isNone && (reqS.series1.isNone || reqS.series2.isNone)) = false)
    (h1 : shortSeries reqS.series = false)
    (h2 : shortSeries reqS.series1 = false)
    (h3 : shortSeries reqS.series2 = false)
    (hl : reqL.system ∈ valid_systems)
    (hr : env.run = .completed 0 out err)
    (hp : env.jsonLoads out = .ok boomObj) :
    analyze_spectrum env reqS =
      (.httpError 500 (wrapUnexpected "spectral analysis" 500 (inBandDetail boomObj)), 1) ∧
    generate_loom env reqL =
      (.httpError 500 (wrapUnexpected "loom generation" 500 (inBandDetail boomObj)), 1) ∧
    containsSubstr (wrapUnexpected "spectral analysis" 500 (inBandDetail boomObj)) "boom" = true ∧
    containsSubstr (wrapUnexpected "loom generation" 500 (inBandDetail boomObj)) "boom" = true ∧
    get_iris_data env = (.ok boomObj, 1) ∧
    demo_spectrum env = (.ok boomObj, 1) ∧
    demo_loom env = (.ok boomObj, 1) := by
  have hb : isInBandError boomObj = true := rfl
  refine ⟨?_, ?_, by decide, by decide, ?_, ?_, ?_⟩ <;>
    simp [analyze_spectrum, generate_loom, get_iris_data, demo_spectrum, demo_loom,
          hs, hform, h1, h2, h3, hl, runAndRespond, hr, gatewayTry, hp, hb]

/-- C2 witness: the amended in-band theorem at a concrete environment and
requests. -/
theorem c2_inband_error_paths_witness :
    analyze_spectrum envBoom reqPass =
      (.httpError 500 (wrapUnexpected "spectral analysis" 500 (inBandDetail boomObj)), 1) ∧
    generate_loom envBoom reqLorenz =
      (.httpError 500 (wrapUnexpected "loom generation" 500 (inBandDetail boomObj)), 1) ∧
    containsSubstr (wrapUnexpected "spectral analysis" 500 (inBandDetail boomObj)) "boom" = true ∧
    containsSubstr (wrapUnexpected "loom generation" 500 (inBandDetail boomObj)) "boom" = true ∧
    get_iris_data envBoom = (.ok boomObj, 1) ∧
    demo_spectrum envBoom = (.ok boomObj, 1) ∧
    demo_loom envBoom = (.ok boomObj, 1) :=
  c2_inband_error_paths envBoom reqPass reqLorenz "boom-out" ""
    rfl rfl rfl rfl rfl (by decide) rfl rfl

/-- C2 counterexample: the claim as stated is false at iris `/data` — on a
zero-exit process emitting the error object, the endpoint returns the
object with HTTP 200, not a 500 server fault. -/
theorem c2_counterexample :
    get_iris_data envBoom = (.ok boomObj, 1) ∧
    (get_iris_data envBoom).1.status ≠ 500 := by
  refine ⟨rfl, by decide⟩

/-- C3 (amended): when the external process exits zero but its stdout is
not valid JSON, every data endpoint returns HTTP 500 whose diagnostic text
embeds the parse failure reason inside the wrapped message
`Unexpected error during <ctx>: 500: Failed to parse R output as JSON:
<reason>`; the bounded raw-output preview is written to the service log
only, not to the HTTP response. -/
theorem c3_parse_failure_paths (env : Env) (reqS : SpectrumRequest) (reqL : LoomRequest)
    (out err e : String)
    (hs : env.scriptExists = true)
    (hform : (reqS.series.isNone && (reqS.series1.isNone || reqS.series2.isNone)) = false)
    (h1 : shortSeries reqS.series = false)
    (h2 : shortSeries reqS.series1 = false)
    (h3 : shortSeries reqS.series2 = false)
    (hl : reqL.system ∈ valid_systems)
    (hr : env.run = .completed 0 out err)
    (hp : env.jsonLoads out = .error e) :
    get_iris_data env =
      (.httpError 500 (wrapUnexpected "iris transformation" 500 (parseFailedDetail e)), 1) ∧
    analyze_spectrum env reqS =
      (.httpError 500 (wrapUnexpected "spectral analysis" 500 (parseFailedDetail e)), 1) ∧
    generate_loom env reqL =
      (.httpError 500 (wrapUnexpected "loom generation" 500 (parseFailedDetail e)), 1) ∧
    demo_spectrum env =
      (.httpError 500 (wrapUnexpected "demo analysis" 500 (parseFailedDetail e)), 1) ∧
    demo_loom env =
      (.httpError 500 (wrapUnexpected "demo generation" 500 (parseFailedDetail e)), 1) := by
  refine ⟨?_, ?_, ?_, ?_, ?_⟩ <;>
    simp [get_iris_data, analyze_spectrum, generate_loom, demo_spectrum, demo_loom,
          hs, hform, h1, h2, h3, hl, runAndRespond, hr, gatewayTry, hp]

/-- C3 witness: the amended parse-failure theorem at a concrete environment
and requests. -/
theorem c3_parse_failure_paths_witness :
    get_iris_data envNotJson =
      (.httpError 500 (wrapUnexpected "iris transformation" 500 (parseFailedDetail decodeErrMsg)), 1) ∧
    analyze_spectrum envNotJson reqPass =
      (.httpError 500 (wrapUnexpected "spectral analysis" 500 (parseFailedDetail decodeErrMsg)), 1) ∧
    generate_loom envNotJson reqLorenz =
      (.httpError 500 (wrapUnexpected "loom generation" 500 (parseFailedDetail decodeErrMsg)), 1) ∧
    demo_spectrum envNotJson =
      (.httpError 500 (wrapUnexpected "demo analysis" 500 (parseFailedDetail decodeErrMsg)), 1) ∧
    demo_loom envNotJson =
      (.httpError 500 (wrapUnexpected "demo generation" 500 (parseFailedDetail decodeErrMsg)), 1) :=
  c3_parse_failure_paths envNotJson reqPass reqLorenz "not-json" "" decodeErrMsg
    rfl rfl rfl rfl rfl (by decide) rfl rfl

/-- C3 counterexample: at iris `/data` with stdout `not-json`, the response
is a 500 whose diagnostic contains the decoder reason but not the claimed
bounded preview of the raw output (the preview only goes to the log). -/
theorem c3_counterexample :
    (get_iris_data envNotJson).1.status = 500 ∧
    containsSubstr (get_iris_data envNotJson).1.detail decodeErrMsg = true ∧
    containsSubstr (get_iris_data envNotJson).1.detail "not-json" = false := by
  refine ⟨rfl, by decide, by decide⟩

/-- C7 (amended): when the external process exits non-zero, each data
endpoint returns HTTP 500 whose diagnostic embeds the captured standard
error (or the fallback text "Unknown R error" when stderr is empty) inside
the wrapped message `Unexpected error during <ctx>: 500: R script execution
failed: <stderr>`; the diagnostic is not the bare stderr and the fallback
is not "unknown error". -/
theorem c7_nonzero_exit_detail (env : Env) (reqS : SpectrumRequest) (reqL : LoomRequest)
    (rc : Int) (out err : String)
    (hs : env.scriptExists = true)
    (hform : (reqS.series.isNone && (reqS.series1.isNone || reqS.series2.isNone)) = false)
    (h1 : shortSeries reqS.series = false)
    (h2 : shortSeries reqS.series1 = false)
    (h3 : shortSeries reqS.series2 = false)
    (hl : reqL.system ∈ valid_systems)
    (hrc : (rc != 0) = true)
    (hr : env.run = .completed rc out err) :
    get_iris_data env =
      (.httpError 500 (wrapUnexpected "iris transformation" 500 (execFailedDetail err)), 1) ∧
    analyze_spectrum env reqS =
      (.httpError 500 (wrapUnexpected "spectral analysis" 500 (execFailedDetail err)), 1) ∧
    generate_loom env reqL =
      (.httpError 500 (wrapUnexpected "loom generation" 500 (execFailedDetail err)), 1) ∧
    demo_spectrum env =
      (.httpError 500 (wrapUnexpected "demo analysis" 500 (execFailedDetail err)), 1) ∧
    demo_loom env =
      (.httpError 500 (wrapUnexpected "demo generation" 500 (execFailedDetail err)), 1) := by
  refine ⟨?_, ?_, ?_, ?_, ?_⟩ <;>
    simp [get_iris_data, analyze_spectrum, generate_loom, demo_spectrum, demo_loom,
          hs, hform, h1, h2, h3, hl, runAndRespond, hr, gatewayTry, hrc]

/-- C7 witness: the amended non-zero-exit theorem at a concrete environment
with empty stderr and concrete requests. -/
theorem c7_nonzero_exit_detail_witness :
    get_iris_data envExitOne =
      (.httpError 500 (wrapUnexpected "iris transformation" 500 (execFailedDetail "")), 1) ∧
    analyze_spectrum envExitOne reqPass =
      (.httpError 500 (wrapUnexpected "spectral analysis" 500 (execFailedDetail "")), 1) ∧
    generate_loom envExitOne reqLorenz =
      (.httpError 500 (wrapUnexpected "loom generation" 500 (execFailedDetail "")), 1) ∧
    demo_spectrum envExitOne =
      (.httpError 500 (wrapUnexpected "demo analysis" 500 (execFailedDetail "")), 1) ∧
    demo_loom envExitOne =
      (.httpError 500 (wrapUnexpected "demo generation" 500 (execFailedDetail "")), 1) :=
  c7_nonzero_exit_detail envExitOne reqPass reqLorenz 1 "" ""
    rfl rfl rfl rfl rfl (by decide) rfl rfl

/-- C7 counterexample: with exit status 1 and empty stderr, iris `/data`
responds 500 but the diagnostic text is neither the captured stderr (empty)
nor the claimed fallback "unknown error"; it is the wrapped message
embedding "Unknown R error". -/
theorem c7_counterexample :
    (get_iris_data envExitOne).1.status = 500 ∧
    (get_iris_data envExitOne).1.detail ≠ "" ∧
    (get_iris_data envExitOne).1.detail ≠ "unknown error" ∧
    containsSubstr (get_iris_data envExitOne).1.detail "Unknown R error" = true := by
  refine ⟨rfl, by decide, by decide, by decide⟩

/-- C8: the diagnostic endpoint reports `pipeline_ready = true` exactly when
all four constituent checks pass: the script file exists, `Rscript
--version` exits zero, the jsonlite probe exits zero printing OK, and the
trial execution exits zero. -/
theorem c8_pipeline_ready_iff (env : DebugEnv) :
    (debug_iris_pipeline env).pipeline_ready
      = (env.scriptExists && rInstalledCheck env.versionRun
          && jsonliteCheck env.jsonliteRun && testExecCheck env.testRun) := by
  rcases env with ⟨p, se, vr, jr, tr, jl⟩
  cases se <;> cases vr <;> cases jr <;> cases tr <;>
    (simp [debug_iris_pipeline, rInstalledCheck, jsonliteCheck, testExecCheck];
     (try (rename_i rc _ _; cases hrc : (rc == 0) <;> simp [hrc]));
     (try tauto))

end Confluence
